import Mathlib

/-!
Shallow embedding of `src/utils/config.py` of the enterprise-ai-agent
repository: a configuration loader that reads named environment variables,
coerces them to typed fields, validates value constraints and assembles an
aggregate configuration object.

Modelling conventions:

* An environment snapshot is an association list from variable names to raw
  string values; `os.getenv(key, default)` is the first match, or the default.
* Python `int(s)` and `float(s)` are modelled by `pyParseInt` and
  `pyParseFloat`, following CPython's accepted grammar (optional surrounding
  whitespace, optional sign, digits with single underscores between digits;
  for floats also an optional fractional part, an optional decimal exponent,
  and the special spellings inf / infinity / nan, case-insensitively).
  The numeric value of a finite float literal is modelled exactly as the
  rational number the literal denotes (`PyFloat.finite q`), abstracting from
  IEEE-754 rounding; no claim below compares floats obtained from distinct
  literals, so this abstraction is equality-preserving.
* A pydantic model construction that can raise (a `@validator` raising
  `ValueError`, or a coercion failure in an argument expression) is modelled
  as `Except String`; the error string is the message of the exception.
* `pathlib.Path` values are modelled by the underlying string.
-/

namespace EnterpriseAgent

/-- An environment snapshot: variable names mapped to raw string values. -/
abbrev Env := List (String × String)

/-- Lookup of a variable in a snapshot, `os.environ.get(key)`. -/
def getenv (env : Env) (key : String) : Option String :=
  env.lookup key

/-- Lookup with a default, `os.getenv(key, default)`. -/
def getenvD (env : Env) (key dflt : String) : String :=
  (env.lookup key).getD dflt

/-! ### Python string-to-number coercions -/

/-- Whitespace stripped by Python's numeric constructors. -/
def pyIsSpace (c : Char) : Bool :=
  c == ' ' || c == '\t' || c == '\n' || c == '\r' || c == Char.ofNat 11 || c == Char.ofNat 12

/-- Strip leading and trailing whitespace from a character list. -/
def pyStrip (cs : List Char) : List Char :=
  ((cs.dropWhile pyIsSpace).reverse.dropWhile pyIsSpace).reverse

/-- Digit-run grammar after an initial digit: further digits, with single
underscores allowed only between digits. -/
def okDigitsCont : List Char → Bool
  | [] => true
  | ['_'] => false
  | '_' :: d :: r => d.isDigit && okDigitsCont r
  | c :: r => c.isDigit && okDigitsCont r

/-- Digit-run grammar of CPython numeric literals: one digit, then digits
with single underscores allowed only between digits. -/
def okDigits : List Char → Bool
  | [] => false
  | c :: r => c.isDigit && okDigitsCont r

/-- Numeric value of a digit run, ignoring the underscore separators. -/
def digitsVal (cs : List Char) : Nat :=
  (cs.filter (fun c => c ≠ '_')).foldl (fun n c => 10 * n + (c.toNat - 48)) 0

/-- Number of actual digits in a digit run (underscores excluded). -/
def digitsLen (cs : List Char) : Nat :=
  (cs.filter (fun c => c ≠ '_')).length

/-- Python `int(s)` for a string argument: `some n` when CPython would return
the integer `n`, `none` when it would raise `ValueError`. -/
def pyParseInt (s : String) : Option Int :=
  match pyStrip s.data with
  | '+' :: r => if okDigits r then some (digitsVal r) else none
  | '-' :: r => if okDigits r then some (-(digitsVal r : Int)) else none
  | cs => if okDigits cs then some (digitsVal cs) else none

/-- The value of a Python float: a finite value (modelled exactly as the
rational number denoted by the literal), a signed infinity, or a NaN. -/
inductive PyFloat where
  | finite (q : ℚ)
  | inf (neg : Bool)
  | nan
deriving DecidableEq, Repr

/-- Exponent part of a float literal: after the `e`, an optional sign and a
digit run. Returns the signed exponent. -/
def pyParseExp : List Char → Option Int
  | '+' :: r => if okDigits r then some (digitsVal r) else none
  | '-' :: r => if okDigits r then some (-(digitsVal r : Int)) else none
  | cs => if okDigits cs then some (digitsVal cs) else none

/-- Mantissa grammar of a float literal: digits, with an optional decimal
point that may have digits on either side but not neither. Returns the
integer-part and fractional-part digit runs. -/
def pyParseMantissa (cs : List Char) : Option (List Char × List Char) :=
  match cs.span (fun c => c ≠ '.') with
  | (ip, []) => if okDigits ip then some (ip, []) else none
  | (ip, _ :: fp) =>
    if (okDigits ip || ip.isEmpty) && (okDigits fp || fp.isEmpty)
        && !(ip.isEmpty && fp.isEmpty) then
      some (ip, fp)
    else none

/-- The exact rational denoted by a signed decimal literal with integer
digits `ip`, fractional digits `fp` and decimal exponent `e`. -/
def decimalVal (neg : Bool) (ip fp : List Char) (e : Int) : ℚ :=
  let mNat : Nat := digitsVal ip * 10 ^ digitsLen fp + digitsVal fp
  let m : Int := if neg then -(mNat : Int) else (mNat : Int)
  let sh : Int := e - (digitsLen fp : Int)
  if 0 ≤ sh then mkRat (m * (10 : Int) ^ sh.natAbs) 1 else mkRat m ((10 : Nat) ^ sh.natAbs)

/-- Body of a float literal after the optional sign: the special spellings,
or a mantissa with an optional exponent. (The sign of a NaN literal carries
no value information.) -/
def pyParseFloatBody (neg : Bool) (cs : List Char) : Option PyFloat :=
  let lower := cs.map Char.toLower
  if lower = "inf".data || lower = "infinity".data then some (PyFloat.inf neg)
  else if lower = "nan".data then some PyFloat.nan
  else
    match cs.span (fun c => !(c = 'e' || c = 'E')) with
    | (mant, []) =>
      (pyParseMantissa mant).map (fun d => PyFloat.finite (decimalVal neg d.1 d.2 0))
    | (mant, _ :: ex) =>
      match pyParseMantissa mant, pyParseExp ex with
      | some d, some e => some (PyFloat.finite (decimalVal neg d.1 d.2 e))
      | _, _ => none

/-- Python `float(s)` for a string argument: `some v` when CPython would
return the value `v`, `none` when it would raise `ValueError`. -/
def pyParseFloat (s : String) : Option PyFloat :=
  match pyStrip s.data with
  | '+' :: r => pyParseFloatBody false r
  | '-' :: r => pyParseFloatBody true r
  | cs => pyParseFloatBody false cs

/-- Coercion `int(s)` as it occurs in an argument expression: a failed parse
raises `ValueError`, aborting the enclosing construction. -/
def pyIntCo (s : String) : Except String Int :=
  match pyParseInt s with
  | some n => .ok n
  | none => .error ("invalid literal for int() with base 10: " ++ s)

/-- Coercion `float(s)` as it occurs in an argument expression: a failed parse
raises `ValueError`, aborting the enclosing construction. -/
def pyFloatCo (s : String) : Except String PyFloat :=
  match pyParseFloat s with
  | some v => .ok v
  | none => .error ("could not convert string to float: " ++ s)

/-- Python `s.lower()` (ASCII case folding, which covers every input the
source compares against). -/
def pyLower (s : String) : String :=
  String.mk (s.data.map Char.toLower)

/-- Boolean coercion of the source: `s.lower() == 'true'`. Total — it never
raises, every non-true spelling is `false`. -/
def pyBool (s : String) : Bool :=
  pyLower s == "true"

/-! ### The four grouped records and their validated construction -/

/-- The sentinel placeholder that marks an unconfigured credential. -/
def sentinel : String := "your_openai_api_key_here"

/-- OpenAI API configuration (`OpenAIConfig` in the source). -/
structure OpenAIConfig where
  api_key : String
  model : String
  temperature : PyFloat
  max_tokens : Int
deriving DecidableEq, Repr

/-- Construction of `OpenAIConfig` with its `validate_api_key` validator:
raises when the key is falsy (the empty string) or equals the sentinel. -/
def OpenAIConfig.construct (api_key model : String) (temperature : PyFloat)
    (max_tokens : Int) : Except String OpenAIConfig :=
  if api_key = "" ∨ api_key = sentinel then
    .error "Valid OpenAI API key required"
  else
    .ok ⟨api_key, model, temperature, max_tokens⟩

/-- Agent behavior configuration (`AgentConfig` in the source). -/
structure AgentConfig where
  max_iterations : Int
  max_execution_time : Int
  verbose : Bool
deriving DecidableEq, Repr

/-- Construction of `AgentConfig` with its `validate_iterations` validator:
raises when the iteration count lies outside `[1, 50]`. -/
def AgentConfig.construct (max_iterations max_execution_time : Int)
    (verbose : Bool) : Except String AgentConfig :=
  if max_iterations < 1 ∨ max_iterations > 50 then
    .error "Max iterations must be between 1 and 50"
  else
    .ok ⟨max_iterations, max_execution_time, verbose⟩

/-- Memory and persistence configuration (`MemoryConfig` in the source).
It has no validator, so its construction cannot fail. -/
structure MemoryConfig where
  memory_type : String
  collection_name : String
  persist_directory : String
deriving DecidableEq, Repr

/-- Cost tracking configuration (`CostConfig` in the source). It has no
validator, so its construction cannot fail. -/
structure CostConfig where
  max_cost_per_request : PyFloat
  enable_cost_tracking : Bool
deriving DecidableEq, Repr

/-- The master configuration aggregate (`Config` in the source). -/
structure Config where
  openai : OpenAIConfig
  agent : AgentConfig
  memory : MemoryConfig
  cost : CostConfig
deriving DecidableEq, Repr

/-! ### The field-default expressions of the `Config` class body

In Python these expressions run exactly once, when the `Config` class is
defined at module import. Each mirrors the source's evaluation order:
the keyword arguments (whose `int`/`float` coercions may raise) are
evaluated left to right before the pydantic constructor runs its
validators. -/

/-- Default expression of the `openai` field of `Config`. -/
def OpenAIConfig.fromEnv (env : Env) : Except String OpenAIConfig := do
  let temperature ← pyFloatCo (getenvD env "OPENAI_TEMPERATURE" "0.0")
  let max_tokens ← pyIntCo (getenvD env "MAX_TOKENS" "4096")
  OpenAIConfig.construct (getenvD env "OPENAI_API_KEY" sentinel)
    (getenvD env "OPENAI_MODEL" "gpt-4-turbo-preview") temperature max_tokens

/-- Default expression of the `agent` field of `Config`. -/
def AgentConfig.fromEnv (env : Env) : Except String AgentConfig := do
  let max_iterations ← pyIntCo (getenvD env "AGENT_MAX_ITERATIONS" "10")
  let max_execution_time ← pyIntCo (getenvD env "AGENT_MAX_EXECUTION_TIME" "300")
  AgentConfig.construct max_iterations max_execution_time
    (pyBool (getenvD env "AGENT_VERBOSE" "true"))

/-- Default expression of the `memory` field of `Config`. -/
def MemoryConfig.fromEnv (env : Env) : MemoryConfig :=
  ⟨getenvD env "MEMORY_TYPE" "chromadb",
   getenvD env "MEMORY_COLLECTION_NAME" "agent_memory",
   getenvD env "MEMORY_PERSIST_DIRECTORY" "./data/memory"⟩

/-- Default expression of the `cost` field of `Config`. -/
def CostConfig.fromEnv (env : Env) : Except String CostConfig := do
  let max_cost ← pyFloatCo (getenvD env "MAX_COST_PER_REQUEST" "1.00")
  pure ⟨max_cost, pyBool (getenvD env "ENABLE_COST_TRACKING" "true")⟩

/-- Evaluation of the `Config` class body against the environment visible at
module import: the four field-default expressions, in source order. The
aggregate exists only if every coercion and every validator succeeded. -/
def Config.classDefaults (env : Env) : Except String Config := do
  let openai ← OpenAIConfig.fromEnv env
  let agent ← AgentConfig.fromEnv env
  let memory := MemoryConfig.fromEnv env
  let cost ← CostConfig.fromEnv env
  pure ⟨openai, agent, memory, cost⟩

/-- Runtime semantics of `Config.load()` / `cls()`: pydantic fills every
omitted field from the class-level defaults, which were captured when the
class was defined; the environment current at call time is not consulted. -/
def Config.load (classDefault : Config) (_currentEnv : Env) : Config :=
  classDefault

/-! ### The pre-load dotenv merge -/

/-- Modelled from the spec: the third-party `load_dotenv()` call (the
`python-dotenv` package, whose code is not part of this repository) merges
the variables of an optional local environment-definition file into the
process environment additively — a variable already set in the process
environment keeps its value, and only variables not already set are
introduced from the file. `none` models an absent file. -/
def load_dotenv (fileVars : Option (List (String × String))) (env : Env) : Env :=
  match fileVars with
  | none => env
  | some kvs =>
    kvs.foldl (fun e kv => if (e.lookup kv.1).isSome then e else e ++ [kv]) env

/-! ### The component's post-construction operation surface -/

/-- State of the process after a successful module import: the environment
captured at import time (from which the class defaults were computed) and
the module-level aggregate `config`. -/
structure ModuleState where
  importEnv : Env
  config : Config
deriving DecidableEq, Repr

/-- The operations the component exposes once the aggregate exists: calling
`Config.load()` again (under whatever environment is current at that time)
and reading any of the four grouped records. The source defines no other
operation on the aggregate and no field assignment anywhere. -/
inductive ComponentOp where
  | loadCall (currentEnv : Env)
  | readOpenai
  | readAgent
  | readMemory
  | readCost
deriving DecidableEq, Repr

/-- The value an operation returns to its caller. -/
inductive Observation where
  | aggregate (c : Config)
  | openaiVal (v : OpenAIConfig)
  | agentVal (v : AgentConfig)
  | memoryVal (v : MemoryConfig)
  | costVal (v : CostConfig)
deriving DecidableEq, Repr

/-- Semantics of one component operation: the post-state and the observation. -/
def stepOp (st : ModuleState) : ComponentOp → ModuleState × Observation
  | .loadCall env => (st, .aggregate (Config.load st.config env))
  | .readOpenai => (st, .openaiVal st.config.openai)
  | .readAgent => (st, .agentVal st.config.agent)
  | .readMemory => (st, .memoryVal st.config.memory)
  | .readCost => (st, .costVal st.config.cost)

/-- Running a sequence of component operations from a state. -/
def runOps (st : ModuleState) : List ComponentOp → ModuleState
  | [] => st
  | op :: rest => runOps (stepOp st op).1 rest

/-! ### Derived validity predicate and concrete snapshots used as witnesses -/

/-- An environment snapshot under which every coercion and every validator of
the class body succeeds: every set numeric variable parses, the credential is
present, non-empty and distinct from the sentinel, and the (parsed or
default) iteration count lies in `[1, 50]`. -/
def envValid (env : Env) : Prop :=
  (pyParseFloat (getenvD env "OPENAI_TEMPERATURE" "0.0")).isSome ∧
  (pyParseInt (getenvD env "MAX_TOKENS" "4096")).isSome ∧
  ¬(getenvD env "OPENAI_API_KEY" sentinel = "" ∨
    getenvD env "OPENAI_API_KEY" sentinel = sentinel) ∧
  (∃ itv : Int, pyParseInt (getenvD env "AGENT_MAX_ITERATIONS" "10") = some itv ∧
    ¬(itv < 1 ∨ itv > 50)) ∧
  (pyParseInt (getenvD env "AGENT_MAX_EXECUTION_TIME" "300")).isSome ∧
  (pyParseFloat (getenvD env "MAX_COST_PER_REQUEST" "1.00")).isSome

instance (env : Env) : Decidable (envValid env) := by
  unfold envValid
  have : ∀ s : String, Decidable (∃ itv : Int, pyParseInt s = some itv ∧ ¬(itv < 1 ∨ itv > 50)) := by
    intro s
    rcases h : pyParseInt s with _ | n
    · exact .isFalse (by simp [h])
    · exact decidable_of_iff (¬(n < 1 ∨ n > 50)) (by simp [h])
  exact instDecidableAnd

/-- A minimal valid snapshot: only the credential is set. -/
def envOnlyKey : Env := [("OPENAI_API_KEY", "sk-test")]

/-- A snapshot setting every variable the loader reads. -/
def envFull : Env :=
  [("OPENAI_API_KEY", "sk-live-1"), ("OPENAI_MODEL", "gpt-4o"),
   ("OPENAI_TEMPERATURE", "0.75"), ("MAX_TOKENS", "2048"),
   ("AGENT_MAX_ITERATIONS", "50"), ("AGENT_MAX_EXECUTION_TIME", "120"),
   ("AGENT_VERBOSE", "FALSE"), ("MEMORY_TYPE", "faiss"),
   ("MEMORY_COLLECTION_NAME", "mem"), ("MEMORY_PERSIST_DIRECTORY", "/tmp/mem"),
   ("MAX_COST_PER_REQUEST", "2.5"), ("ENABLE_COST_TRACKING", "TrUe")]

/-- A snapshot whose credential is valid but whose temperature does not parse. -/
def envBadTemp : Env := [("OPENAI_API_KEY", "sk-test"), ("OPENAI_TEMPERATURE", "abc")]

/-- A snapshot with no credential and a non-numeric temperature. -/
def envNoKeyBadTemp : Env := [("OPENAI_TEMPERATURE", "abc")]

/-- The aggregate the loader produces from `envOnlyKey`: every optional
field at its documented default. -/
def defaultAggregate : Config :=
  ⟨⟨"sk-test", "gpt-4-turbo-preview", .finite 0, 4096⟩,
   ⟨10, 300, true⟩,
   ⟨"chromadb", "agent_memory", "./data/memory"⟩,
   ⟨.finite 1, true⟩⟩

/-- The aggregate the loader produces from `envFull`. -/
def fullAggregate : Config :=
  ⟨⟨"sk-live-1", "gpt-4o", .finite (mkRat 3 4), 2048⟩,
   ⟨50, 120, false⟩,
   ⟨"faiss", "mem", "/tmp/mem"⟩,
   ⟨.finite (mkRat 5 2), true⟩⟩

/-! ## Helper lemmas -/

theorem ok_bind {α β : Type} (a : α) (f : α → Except String β) :
    (Except.ok a >>= f : Except String β) = f a := rfl

theorem error_bind {α β : Type} (e : String) (f : α → Except String β) :
    ((Except.error e : Except String α) >>= f) = Except.error e := rfl

theorem pure_eq_ok {α : Type} (a : α) :
    (pure a : Except String α) = Except.ok a := rfl

theorem getenvD_cons_ne (key k v dflt : String) (env : Env) (h : key ≠ k) :
    getenvD ((k, v) :: env) key dflt = getenvD env key dflt := by
  have hb : (key == k) = false := beq_eq_false_iff_ne.mpr h
  unfold getenvD
  rw [List.lookup_cons, hb]

theorem getenvD_cons_self (k v dflt : String) (env : Env) :
    getenvD ((k, v) :: env) k dflt = v := by
  unfold getenvD
  rw [List.lookup_cons, beq_self_eq_true]
  rfl

theorem getenvD_of_getenv_some (env : Env) (k s dflt : String)
    (h : getenv env k = some s) : getenvD env k dflt = s := by
  unfold getenv at h
  unfold getenvD
  rw [h]
  rfl

theorem getenvD_of_getenv_none (env : Env) (k dflt : String)
    (h : getenv env k = none) : getenvD env k dflt = dflt := by
  unfold getenv at h
  unfold getenvD
  rw [h]
  rfl

theorem bind_eq_ok_iff {α β : Type} (x : Except String α) (f : α → Except String β) (b : β) :
    (x >>= f) = .ok b ↔ ∃ a, x = .ok a ∧ f a = .ok b := by
  cases x <;> simp [ok_bind, error_bind]

/-- Characterization of the `openai` field-default expression. -/
theorem openai_fromEnv_ok_iff (env : Env) (o : OpenAIConfig) :
    OpenAIConfig.fromEnv env = .ok o ↔
      ∃ (tv : PyFloat) (mtv : Int),
        pyParseFloat (getenvD env "OPENAI_TEMPERATURE" "0.0") = some tv ∧
        pyParseInt (getenvD env "MAX_TOKENS" "4096") = some mtv ∧
        ¬(getenvD env "OPENAI_API_KEY" sentinel = "" ∨
          getenvD env "OPENAI_API_KEY" sentinel = sentinel) ∧
        o = ⟨getenvD env "OPENAI_API_KEY" sentinel,
             getenvD env "OPENAI_MODEL" "gpt-4-turbo-preview", tv, mtv⟩ := by
  unfold OpenAIConfig.fromEnv OpenAIConfig.construct
  rcases hT : pyParseFloat (getenvD env "OPENAI_TEMPERATURE" "0.0") with _ | tv <;>
    rcases hM : pyParseInt (getenvD env "MAX_TOKENS" "4096") with _ | mtv <;>
    simp only [pyFloatCo, pyIntCo, hT, hM, ok_bind, error_bind] <;>
    try simp
  by_cases hk : getenvD env "OPENAI_API_KEY" sentinel = "" ∨
      getenvD env "OPENAI_API_KEY" sentinel = sentinel
  · rw [if_pos hk]
    constructor
    · intro h
      exact absurd h (by simp)
    · rintro ⟨⟨h1, h2⟩, -⟩
      rcases hk with hk | hk
      · exact absurd hk h1
      · exact absurd hk h2
  · rw [if_neg hk]
    obtain ⟨h1, h2⟩ := not_or.mp hk
    simp [h1, h2, eq_comm]

/-- Characterization of the `agent` field-default expression. -/
theorem agent_fromEnv_ok_iff (env : Env) (a : AgentConfig) :
    AgentConfig.fromEnv env = .ok a ↔
      ∃ (itv etv : Int),
        pyParseInt (getenvD env "AGENT_MAX_ITERATIONS" "10") = some itv ∧
        ¬(itv < 1 ∨ itv > 50) ∧
        pyParseInt (getenvD env "AGENT_MAX_EXECUTION_TIME" "300") = some etv ∧
        a = ⟨itv, etv, pyBool (getenvD env "AGENT_VERBOSE" "true")⟩ := by
  unfold AgentConfig.fromEnv AgentConfig.construct
  rcases hI : pyParseInt (getenvD env "AGENT_MAX_ITERATIONS" "10") with _ | itv <;>
    rcases hE : pyParseInt (getenvD env "AGENT_MAX_EXECUTION_TIME" "300") with _ | etv <;>
    simp only [pyFloatCo, pyIntCo, hI, hE, ok_bind, error_bind] <;>
    try simp
  by_cases hi : itv < 1 ∨ itv > 50 <;>
    simp [hi, AgentConfig.mk.injEq, eq_comm]
  · intro h1 h2
    exact absurd hi (by omega)
  · intro _
    omega

/-- Characterization of the `cost` field-default expression. -/
theorem cost_fromEnv_ok_iff (env : Env) (k : CostConfig) :
    CostConfig.fromEnv env = .ok k ↔
      ∃ mcv : PyFloat,
        pyParseFloat (getenvD env "MAX_COST_PER_REQUEST" "1.00") = some mcv ∧
        k = ⟨mcv, pyBool (getenvD env "ENABLE_COST_TRACKING" "true")⟩ := by
  unfold CostConfig.fromEnv
  rcases hC : pyParseFloat (getenvD env "MAX_COST_PER_REQUEST" "1.00") with _ | mcv <;>
    simp only [pyFloatCo, hC, ok_bind, error_bind, pure_eq_ok] <;>
    simp [CostConfig.mk.injEq, eq_comm]

/-- Full characterization of the class-body evaluation: it produces an
aggregate exactly when every coercion parses and both validators pass; and
then every field of the aggregate is the coerced environment-derived (or
default) value. -/
theorem classDefaults_ok_iff (env : Env) (c : Config) :
    Config.classDefaults env = .ok c ↔
      ∃ (tv : PyFloat) (mtv itv etv : Int) (mcv : PyFloat),
        pyParseFloat (getenvD env "OPENAI_TEMPERATURE" "0.0") = some tv ∧
        pyParseInt (getenvD env "MAX_TOKENS" "4096") = some mtv ∧
        ¬(getenvD env "OPENAI_API_KEY" sentinel = "" ∨
          getenvD env "OPENAI_API_KEY" sentinel = sentinel) ∧
        pyParseInt (getenvD env "AGENT_MAX_ITERATIONS" "10") = some itv ∧
        ¬(itv < 1 ∨ itv > 50) ∧
        pyParseInt (getenvD env "AGENT_MAX_EXECUTION_TIME" "300") = some etv ∧
        pyParseFloat (getenvD env "MAX_COST_PER_REQUEST" "1.00") = some mcv ∧
        c = ⟨⟨getenvD env "OPENAI_API_KEY" sentinel,
              getenvD env "OPENAI_MODEL" "gpt-4-turbo-preview", tv, mtv⟩,
             ⟨itv, etv, pyBool (getenvD env "AGENT_VERBOSE" "true")⟩,
             MemoryConfig.fromEnv env,
             ⟨mcv, pyBool (getenvD env "ENABLE_COST_TRACKING" "true")⟩⟩ := by
  unfold Config.classDefaults
  simp only [bind_eq_ok_iff, pure_eq_ok, Except.ok.injEq,
    openai_fromEnv_ok_iff, agent_fromEnv_ok_iff, cost_fromEnv_ok_iff]
  constructor
  · rintro ⟨o, ⟨tv, mtv, hT, hM, hk, rfl⟩, a, ⟨itv, etv, hI, hi, hE, rfl⟩,
      k, ⟨mcv, hC, rfl⟩, rfl⟩
    exact ⟨tv, mtv, itv, etv, mcv, hT, hM, hk, hI, hi, hE, hC, rfl⟩
  · rintro ⟨tv, mtv, itv, etv, mcv, hT, hM, hk, hI, hi, hE, hC, rfl⟩
    exact ⟨_, ⟨tv, mtv, hT, hM, hk, rfl⟩, _, ⟨itv, etv, hI, hi, hE, rfl⟩,
      _, ⟨mcv, hC, rfl⟩, rfl⟩

/-- The class body produces some aggregate exactly on valid snapshots. -/
theorem classDefaults_ok_exists_iff (env : Env) :
    (∃ c, Config.classDefaults env = .ok c) ↔ envValid env := by
  constructor
  · rintro ⟨c, hc⟩
    obtain ⟨tv, mtv, itv, etv, mcv, hT, hM, hk, hI, hi, hE, hC, -⟩ :=
      (classDefaults_ok_iff env c).1 hc
    exact ⟨by rw [hT]; rfl, by rw [hM]; rfl, hk, ⟨itv, hI, hi⟩,
      by rw [hE]; rfl, by rw [hC]; rfl⟩
  · rintro ⟨hT, hM, hk, ⟨itv, hI, hi⟩, hE, hC⟩
    obtain ⟨tv, hT⟩ := Option.isSome_iff_exists.mp hT
    obtain ⟨mtv, hM⟩ := Option.isSome_iff_exists.mp hM
    obtain ⟨etv, hE⟩ := Option.isSome_iff_exists.mp hE
    obtain ⟨mcv, hC⟩ := Option.isSome_iff_exists.mp hC
    exact ⟨_, (classDefaults_ok_iff env _).2
      ⟨tv, mtv, itv, etv, mcv, hT, hM, hk, hI, hi, hE, hC, rfl⟩⟩

/-- Success of the class-body evaluation, as a boolean observation. -/
theorem classDefaults_isOk_iff (env : Env) :
    (Config.classDefaults env).isOk = true ↔ envValid env := by
  rw [← classDefaults_ok_exists_iff]
  constructor
  · intro h
    rcases hx : Config.classDefaults env with e | c
    · rw [hx] at h
      simp [Except.isOk, Except.toBool] at h
    · exact ⟨c, rfl⟩
  · rintro ⟨c, hc⟩
    rw [hc]
    rfl

theorem classDefaults_isOk_congr (env₁ env₂ : Env)
    (h : envValid env₁ ↔ envValid env₂) :
    (Config.classDefaults env₁).isOk = (Config.classDefaults env₂).isOk := by
  have h₁ := classDefaults_isOk_iff env₁
  have h₂ := classDefaults_isOk_iff env₂
  rcases hb₁ : (Config.classDefaults env₁).isOk <;>
    rcases hb₂ : (Config.classDefaults env₂).isOk <;> try rfl
  · rw [hb₂] at h₂
    rw [hb₁] at h₁
    exact absurd (h₁.mpr (h.mpr (h₂.mp rfl))) (by simp)
  · rw [hb₂] at h₂
    rw [hb₁] at h₁
    exact absurd (h₂.mpr (h.mp (h₁.mp rfl))) (by simp)

/-- Each field of a successfully constructed aggregate is the coerced
environment-derived (or default) value. -/
theorem classDefaults_fields (env : Env) (c : Config)
    (h : Config.classDefaults env = .ok c) :
    c.openai.api_key = getenvD env "OPENAI_API_KEY" sentinel ∧
    c.openai.model = getenvD env "OPENAI_MODEL" "gpt-4-turbo-preview" ∧
    pyParseFloat (getenvD env "OPENAI_TEMPERATURE" "0.0") = some c.openai.temperature ∧
    pyParseInt (getenvD env "MAX_TOKENS" "4096") = some c.openai.max_tokens ∧
    pyParseInt (getenvD env "AGENT_MAX_ITERATIONS" "10") = some c.agent.max_iterations ∧
    pyParseInt (getenvD env "AGENT_MAX_EXECUTION_TIME" "300") = some c.agent.max_execution_time ∧
    c.agent.verbose = pyBool (getenvD env "AGENT_VERBOSE" "true") ∧
    c.memory = MemoryConfig.fromEnv env ∧
    pyParseFloat (getenvD env "MAX_COST_PER_REQUEST" "1.00") = some c.cost.max_cost_per_request ∧
    c.cost.enable_cost_tracking = pyBool (getenvD env "ENABLE_COST_TRACKING" "true") := by
  obtain ⟨tv, mtv, itv, etv, mcv, hT, hM, hk, hI, hi, hE, hC, rfl⟩ :=
    (classDefaults_ok_iff env c).1 h
  exact ⟨rfl, rfl, hT, hM, hI, hE, rfl, rfl, hC, rfl⟩

/-- Validity of a snapshot is unaffected by prepending a binding for a key
the validity conditions never read. -/
theorem envValid_cons_unchecked (k v : String) (env : Env)
    (h1 : "OPENAI_TEMPERATURE" ≠ k) (h2 : "MAX_TOKENS" ≠ k)
    (h3 : "OPENAI_API_KEY" ≠ k) (h4 : "AGENT_MAX_ITERATIONS" ≠ k)
    (h5 : "AGENT_MAX_EXECUTION_TIME" ≠ k) (h6 : "MAX_COST_PER_REQUEST" ≠ k) :
    envValid ((k, v) :: env) ↔ envValid env := by
  unfold envValid
  rw [getenvD_cons_ne _ _ _ _ _ h1, getenvD_cons_ne _ _ _ _ _ h2,
    getenvD_cons_ne _ _ _ _ _ h3, getenvD_cons_ne _ _ _ _ _ h4,
    getenvD_cons_ne _ _ _ _ _ h5, getenvD_cons_ne _ _ _ _ _ h6]

theorem lookup_append_left_some (env l : Env) (k v : String)
    (h : env.lookup k = some v) : (env ++ l).lookup k = some v := by
  induction env with
  | nil => simp [List.lookup] at h
  | cons hd tl ih =>
    rcases hd with ⟨k', v'⟩
    cases hb : (k == k')
    · simp only [List.cons_append, List.lookup_cons, hb] at h ⊢
      exact ih h
    · simp only [List.cons_append, List.lookup_cons, hb] at h ⊢
      exact h

theorem dotenv_foldl_preserves (kvs : List (String × String)) (env : Env)
    (k v : String) (h : env.lookup k = some v) :
    (kvs.foldl (fun e kv => if (e.lookup kv.1).isSome then e else e ++ [kv])
      env).lookup k = some v := by
  induction kvs generalizing env with
  | nil => exact h
  | cons hd tl ih =>
    rw [List.foldl_cons]
    apply ih
    by_cases hb : (env.lookup hd.1).isSome = true
    · rw [if_pos hb]
      exact h
    · rw [if_neg hb]
      exact lookup_append_left_some env [hd] k v h

theorem runOps_preserves (st : ModuleState) (ops : List ComponentOp) :
    runOps st ops = st := by
  induction ops generalizing st with
  | nil => rfl
  | cons op rest ih => cases op <;> simp [runOps, stepOp, ih]

/-! ## Claim theorems -/

/-- Claim C1, counterexample: the snapshot `envBadTemp` satisfies the
claim's stated validity conditions — the credential is present, non-empty
and distinct from the sentinel, and the (default) iteration count 10 lies in
`[1, 50]` — yet loading does not succeed: the class-body evaluation aborts
on the non-numeric temperature string, so the claim as stated is false. -/
theorem C1_counterexample :
    (getenvD envBadTemp "OPENAI_API_KEY" sentinel = "sk-test" ∧
     ¬("sk-test" = "" ∨ "sk-test" = sentinel) ∧
     pyParseInt (getenvD envBadTemp "AGENT_MAX_ITERATIONS" "10") = some 10 ∧
     ¬((10 : Int) < 1 ∨ (10 : Int) > 50)) ∧
    Config.classDefaults envBadTemp =
      .error "could not convert string to float: abc" :=
  ⟨⟨rfl, by decide, rfl, by decide⟩, rfl⟩

/-- Claim C1 (amended): for every environment snapshot that is valid — the
credential key present, non-empty and not the sentinel placeholder, the
iteration count in `[1, 50]`, and additionally every set numeric variable
parsing as its declared type — invoking the loader succeeds and returns an
aggregate in which every field equals the value derived from its environment
variable, or the documented literal default when that variable is absent,
exactly. -/
theorem C1_valid_snapshot_loads (env : Env) (tv : PyFloat) (mtv itv etv : Int)
    (mcv : PyFloat)
    (hT : pyParseFloat (getenvD env "OPENAI_TEMPERATURE" "0.0") = some tv)
    (hM : pyParseInt (getenvD env "MAX_TOKENS" "4096") = some mtv)
    (hK : ¬(getenvD env "OPENAI_API_KEY" sentinel = "" ∨
            getenvD env "OPENAI_API_KEY" sentinel = sentinel))
    (hI : pyParseInt (getenvD env "AGENT_MAX_ITERATIONS" "10") = some itv)
    (hR : 1 ≤ itv ∧ itv ≤ 50)
    (hE : pyParseInt (getenvD env "AGENT_MAX_EXECUTION_TIME" "300") = some etv)
    (hC : pyParseFloat (getenvD env "MAX_COST_PER_REQUEST" "1.00") = some mcv) :
    Config.classDefaults env =
      .ok ⟨⟨getenvD env "OPENAI_API_KEY" sentinel,
            getenvD env "OPENAI_MODEL" "gpt-4-turbo-preview", tv, mtv⟩,
           ⟨itv, etv, pyBool (getenvD env "AGENT_VERBOSE" "true")⟩,
           ⟨getenvD env "MEMORY_TYPE" "chromadb",
            getenvD env "MEMORY_COLLECTION_NAME" "agent_memory",
            getenvD env "MEMORY_PERSIST_DIRECTORY" "./data/memory"⟩,
           ⟨mcv, pyBool (getenvD env "ENABLE_COST_TRACKING" "true")⟩⟩ := by
  exact (classDefaults_ok_iff env _).2
    ⟨tv, mtv, itv, etv, mcv, hT, hM, hK, hI, by omega, hE, hC, rfl⟩

/-- Witness for C1's amended theorem at the concrete snapshot `envFull`. -/
theorem C1_witness :
    Config.classDefaults envFull =
      .ok ⟨⟨"sk-live-1", "gpt-4o", .finite (mkRat 3 4), 2048⟩,
           ⟨50, 120, false⟩,
           ⟨"faiss", "mem", "/tmp/mem"⟩,
           ⟨.finite (mkRat 5 2), true⟩⟩ := by
  exact C1_valid_snapshot_loads envFull (.finite (mkRat 3 4)) 2048 50 120
    (.finite (mkRat 5 2)) (by decide) (by decide) (by decide) (by decide)
    (by decide) (by decide) (by decide)

/-- Claim C2, counterexample: with the credential key absent and the
temperature set to a non-numeric string, construction fails — but with the
float-coercion error raised while the arguments of the record constructor
are being evaluated, not with the error reporting that a valid credential is
required, because argument coercions run before the validator. -/
theorem C2_counterexample :
    getenvD envNoKeyBadTemp "OPENAI_API_KEY" sentinel = sentinel ∧
    Config.classDefaults envNoKeyBadTemp =
      .error "could not convert string to float: abc" ∧
    ("could not convert string to float: abc" : String) ≠
      "Valid OpenAI API key required" :=
  ⟨rfl, rfl, by decide⟩

/-- Claim C2 (amended): for every environment snapshot in which the
credential key is absent, empty, or equal to the sentinel placeholder,
construction fails and no aggregate (not even a partial one) is produced;
when the numeric coercions that are evaluated before the validator all
succeed, the error is the one reporting that a valid credential is
required. -/
theorem C2_invalid_credential_fails (env : Env)
    (hK : getenvD env "OPENAI_API_KEY" sentinel = "" ∨
          getenvD env "OPENAI_API_KEY" sentinel = sentinel) :
    (Config.classDefaults env).isOk = false ∧
    (∀ tv mtv, pyParseFloat (getenvD env "OPENAI_TEMPERATURE" "0.0") = some tv →
      pyParseInt (getenvD env "MAX_TOKENS" "4096") = some mtv →
      Config.classDefaults env = .error "Valid OpenAI API key required") := by
  constructor
  · rcases hb : (Config.classDefaults env).isOk
    · rfl
    · exact absurd hK ((classDefaults_isOk_iff env).1 hb).2.2.1
  · intro tv mtv hT hM
    unfold Config.classDefaults OpenAIConfig.fromEnv OpenAIConfig.construct
    simp only [pyFloatCo, pyIntCo, hT, hM, ok_bind]
    rw [if_pos hK]
    rfl

/-- Witness for C2's amended theorem at the empty snapshot (key absent). -/
theorem C2_witness :
    (Config.classDefaults ([] : Env)).isOk = false ∧
    Config.classDefaults ([] : Env) = .error "Valid OpenAI API key required" := by
  have h := C2_invalid_credential_fails [] (Or.inr rfl)
  exact ⟨h.1, h.2 (.finite 0) 4096 (by decide) (by decide)⟩

/-- Claim C3 (confirmed): construction of the agent record fails, reporting
that the iteration count must be between 1 and 50, exactly when the coerced
iteration count lies outside the closed range `[1, 50]`; on the boundary
values and everything in between it succeeds with the given fields. -/
theorem C3_iteration_validator (mi met : Int) (vb : Bool) :
    (AgentConfig.construct mi met vb =
        .error "Max iterations must be between 1 and 50" ↔ (mi < 1 ∨ mi > 50)) ∧
    (AgentConfig.construct mi met vb = .ok ⟨mi, met, vb⟩ ↔ (1 ≤ mi ∧ mi ≤ 50)) := by
  unfold AgentConfig.construct
  by_cases h : mi < 1 ∨ mi > 50
  · rw [if_pos h]
    constructor
    · exact ⟨fun _ => h, fun _ => rfl⟩
    · constructor
      · intro hc
        exact absurd hc (by simp)
      · intro hr
        exact absurd h (by omega)
  · rw [if_neg h]
    constructor
    · constructor
      · intro hc
        exact absurd hc (by simp)
      · intro hr
        exact absurd hr h
    · exact ⟨fun _ => by omega, fun _ => rfl⟩

/-- Claim C4 (confirmed): whenever any one of MAX_TOKENS,
OPENAI_TEMPERATURE, AGENT_MAX_EXECUTION_TIME or MAX_COST_PER_REQUEST is set
to a string that does not parse as the field's declared numeric type,
construction fails and no aggregate is created — the explicitly set invalid
value is never replaced by the default. -/
theorem C4_coercion_failure_aborts (env : Env) (s : String)
    (h : (getenv env "MAX_TOKENS" = some s ∧ pyParseInt s = none) ∨
         (getenv env "OPENAI_TEMPERATURE" = some s ∧ pyParseFloat s = none) ∨
         (getenv env "AGENT_MAX_EXECUTION_TIME" = some s ∧ pyParseInt s = none) ∨
         (getenv env "MAX_COST_PER_REQUEST" = some s ∧ pyParseFloat s = none)) :
    (Config.classDefaults env).isOk = false := by
  rcases hb : (Config.classDefaults env).isOk
  · rfl
  exfalso
  obtain ⟨hT, hM, -, ⟨itv, hI, -⟩, hE, hC⟩ := (classDefaults_isOk_iff env).1 hb
  rcases h with ⟨hs, hp⟩ | ⟨hs, hp⟩ | ⟨hs, hp⟩ | ⟨hs, hp⟩
  · rw [getenvD_of_getenv_some env _ _ _ hs, hp] at hM
    simp at hM
  · rw [getenvD_of_getenv_some env _ _ _ hs, hp] at hT
    simp at hT
  · rw [getenvD_of_getenv_some env _ _ _ hs, hp] at hE
    simp at hE
  · rw [getenvD_of_getenv_some env _ _ _ hs, hp] at hC
    simp at hC

/-- Witness for C4 at a snapshot whose MAX_TOKENS value is not numeric. -/
theorem C4_witness :
    (getenv [("MAX_TOKENS", "4o96")] "MAX_TOKENS" = some "4o96" ∧
     pyParseInt "4o96" = none) ∧
    (Config.classDefaults [("MAX_TOKENS", "4o96")]).isOk = false :=
  ⟨⟨rfl, by decide⟩,
   C4_coercion_failure_aborts [("MAX_TOKENS", "4o96")] "4o96" (Or.inl ⟨rfl, by decide⟩)⟩

/-- Claim C5 (confirmed): whenever loading succeeds, every optional variable
that is unset yields exactly its documented literal default in the
aggregate: model "gpt-4-turbo-preview", temperature 0.0, max tokens 4096,
max iterations 10, max execution time 300, verbose true, memory type
"chromadb", collection "agent_memory", persist directory "./data/memory",
max cost per request 1.00, cost tracking true. -/
theorem C5_unset_defaults (env : Env) (c : Config)
    (h : Config.classDefaults env = .ok c) :
    (getenv env "OPENAI_MODEL" = none → c.openai.model = "gpt-4-turbo-preview") ∧
    (getenv env "OPENAI_TEMPERATURE" = none → c.openai.temperature = .finite 0) ∧
    (getenv env "MAX_TOKENS" = none → c.openai.max_tokens = 4096) ∧
    (getenv env "AGENT_MAX_ITERATIONS" = none → c.agent.max_iterations = 10) ∧
    (getenv env "AGENT_MAX_EXECUTION_TIME" = none → c.agent.max_execution_time = 300) ∧
    (getenv env "AGENT_VERBOSE" = none → c.agent.verbose = true) ∧
    (getenv env "MEMORY_TYPE" = none → c.memory.memory_type = "chromadb") ∧
    (getenv env "MEMORY_COLLECTION_NAME" = none → c.memory.collection_name = "agent_memory") ∧
    (getenv env "MEMORY_PERSIST_DIRECTORY" = none → c.memory.persist_directory = "./data/memory") ∧
    (getenv env "MAX_COST_PER_REQUEST" = none → c.cost.max_cost_per_request = .finite 1) ∧
    (getenv env "ENABLE_COST_TRACKING" = none → c.cost.enable_cost_tracking = true) := by
  obtain ⟨hkey, hmodel, hT, hM, hI, hE, hvb, hmem, hC, hct⟩ := classDefaults_fields env c h
  refine ⟨?_, ?_, ?_, ?_, ?_, ?_, ?_, ?_, ?_, ?_, ?_⟩
  · intro hn
    rw [hmodel, getenvD_of_getenv_none env _ _ hn]
  · intro hn
    rw [getenvD_of_getenv_none env _ _ hn] at hT
    have hz : pyParseFloat "0.0" = some (.finite 0) := by decide
    rw [hz] at hT
    injection hT with hv
    exact hv.symm
  · intro hn
    rw [getenvD_of_getenv_none env _ _ hn] at hM
    have hz : pyParseInt "4096" = some 4096 := by decide
    rw [hz] at hM
    injection hM with hv
    exact hv.symm
  · intro hn
    rw [getenvD_of_getenv_none env _ _ hn] at hI
    have hz : pyParseInt "10" = some 10 := by decide
    rw [hz] at hI
    injection hI with hv
    exact hv.symm
  · intro hn
    rw [getenvD_of_getenv_none env _ _ hn] at hE
    have hz : pyParseInt "300" = some 300 := by decide
    rw [hz] at hE
    injection hE with hv
    exact hv.symm
  · intro hn
    rw [hvb, getenvD_of_getenv_none env _ _ hn]
    decide
  · intro hn
    rw [hmem]
    unfold MemoryConfig.fromEnv
    exact getenvD_of_getenv_none env _ _ hn
  · intro hn
    rw [hmem]
    unfold MemoryConfig.fromEnv
    exact getenvD_of_getenv_none env _ _ hn
  · intro hn
    rw [hmem]
    unfold MemoryConfig.fromEnv
    exact getenvD_of_getenv_none env _ _ hn
  · intro hn
    rw [getenvD_of_getenv_none env _ _ hn] at hC
    have hz : pyParseFloat "1.00" = some (.finite 1) := by decide
    rw [hz] at hC
    injection hC with hv
    exact hv.symm
  · intro hn
    rw [hct, getenvD_of_getenv_none env _ _ hn]
    decide

/-- Witness for C5 at `envOnlyKey`, where every optional variable is unset. -/
theorem C5_witness :
    Config.classDefaults envOnlyKey = .ok defaultAggregate ∧
    defaultAggregate.openai.model = "gpt-4-turbo-preview" ∧
    defaultAggregate.openai.temperature = .finite 0 ∧
    defaultAggregate.openai.max_tokens = 4096 ∧
    defaultAggregate.agent.max_iterations = 10 ∧
    defaultAggregate.agent.max_execution_time = 300 ∧
    defaultAggregate.agent.verbose = true ∧
    defaultAggregate.memory.memory_type = "chromadb" ∧
    defaultAggregate.memory.collection_name = "agent_memory" ∧
    defaultAggregate.memory.persist_directory = "./data/memory" ∧
    defaultAggregate.cost.max_cost_per_request = .finite 1 ∧
    defaultAggregate.cost.enable_cost_tracking = true := by
  have hok : Config.classDefaults envOnlyKey = .ok defaultAggregate := rfl
  have h := C5_unset_defaults envOnlyKey defaultAggregate hok
  exact ⟨hok, h.1 rfl, h.2.1 rfl, h.2.2.1 rfl, h.2.2.2.1 rfl, h.2.2.2.2.1 rfl,
    h.2.2.2.2.2.1 rfl, h.2.2.2.2.2.2.1 rfl, h.2.2.2.2.2.2.2.1 rfl,
    h.2.2.2.2.2.2.2.2.1 rfl, h.2.2.2.2.2.2.2.2.2.1 rfl,
    h.2.2.2.2.2.2.2.2.2.2 rfl⟩

/-- Claim C6 (confirmed): the two boolean fields are coerced by
case-insensitive comparison with "true" — whenever loading succeeds with the
variable set to `s`, the field equals `pyLower s == "true"`, so every case
variant of "true" yields `true` and every other string yields `false` — and
setting either boolean variable to any string never changes whether
construction succeeds. -/
theorem C6_bool_coercion (env : Env) (s : String) (c : Config) :
    ((Config.classDefaults (("AGENT_VERBOSE", s) :: env)).isOk =
        (Config.classDefaults env).isOk ∧
     (Config.classDefaults (("ENABLE_COST_TRACKING", s) :: env)).isOk =
        (Config.classDefaults env).isOk) ∧
    (Config.classDefaults env = .ok c →
      (getenv env "AGENT_VERBOSE" = some s →
        c.agent.verbose = (pyLower s == "true")) ∧
      (getenv env "ENABLE_COST_TRACKING" = some s →
        c.cost.enable_cost_tracking = (pyLower s == "true"))) := by
  constructor
  · exact ⟨classDefaults_isOk_congr _ _ (envValid_cons_unchecked _ s env
        (by decide) (by decide) (by decide) (by decide) (by decide) (by decide)),
      classDefaults_isOk_congr _ _ (envValid_cons_unchecked _ s env
        (by decide) (by decide) (by decide) (by decide) (by decide) (by decide))⟩
  · intro h
    obtain ⟨-, -, -, -, -, -, hvb, -, -, hct⟩ := classDefaults_fields env c h
    constructor
    · intro hs
      rw [hvb, getenvD_of_getenv_some env _ _ _ hs]
      rfl
    · intro hs
      rw [hct, getenvD_of_getenv_some env _ _ _ hs]
      rfl

/-- Witness for C6 at `envFull` (AGENT_VERBOSE set to "FALSE",
ENABLE_COST_TRACKING set to "TrUe"). -/
theorem C6_witness :
    (Config.classDefaults (("AGENT_VERBOSE", "yes") :: envFull)).isOk =
      (Config.classDefaults envFull).isOk ∧
    fullAggregate.agent.verbose = (pyLower "FALSE" == "true") ∧
    fullAggregate.cost.enable_cost_tracking = (pyLower "TrUe" == "true") := by
  have hok : Config.classDefaults envFull = .ok fullAggregate := rfl
  refine ⟨(C6_bool_coercion envFull "yes" fullAggregate).1.1, ?_, ?_⟩
  · exact ((C6_bool_coercion envFull "FALSE" fullAggregate).2 hok).1 rfl
  · exact ((C6_bool_coercion envFull "TrUe" fullAggregate).2 hok).2 rfl

/-- Claim C7 (confirmed): loading is idempotent — two invocations of the
loader against the identical snapshot yield aggregates whose four grouped
records (and hence all fields) are pairwise equal, and `Config.load` returns
them unchanged. -/
theorem C7_idempotent (env : Env) (c₁ c₂ : Config)
    (h₁ : Config.classDefaults env = .ok c₁)
    (h₂ : Config.classDefaults env = .ok c₂) :
    c₁.openai = c₂.openai ∧ c₁.agent = c₂.agent ∧
    c₁.memory = c₂.memory ∧ c₁.cost = c₂.cost ∧
    Config.load c₁ env = Config.load c₂ env := by
  rw [h₁] at h₂
  injection h₂ with h
  rw [h]
  exact ⟨rfl, rfl, rfl, rfl, rfl⟩

/-- Witness for C7 at `envOnlyKey`. -/
theorem C7_witness :
    defaultAggregate.openai = defaultAggregate.openai ∧
    defaultAggregate.agent = defaultAggregate.agent ∧
    defaultAggregate.memory = defaultAggregate.memory ∧
    defaultAggregate.cost = defaultAggregate.cost ∧
    Config.load defaultAggregate envOnlyKey = Config.load defaultAggregate envOnlyKey :=
  C7_idempotent envOnlyKey defaultAggregate defaultAggregate rfl rfl

/-- Claim C8 (confirmed, against the spec model of the third-party dotenv
merge): the pre-load merge of the optional environment-definition file is
additive — every variable already set in the process environment keeps its
value through the merge. -/
theorem C8_dotenv_additive (fileVars : Option (List (String × String)))
    (env : Env) (k v : String) (h : env.lookup k = some v) :
    (load_dotenv fileVars env).lookup k = some v := by
  cases fileVars with
  | none => exact h
  | some kvs => exact dotenv_foldl_preserves kvs env k v h

/-- Witness for C8: a file binding for an already-set variable does not
override the process environment. -/
theorem C8_witness :
    ([("OPENAI_API_KEY", "sk-env")] : Env).lookup "OPENAI_API_KEY" = some "sk-env" ∧
    (load_dotenv (some [("OPENAI_API_KEY", "from-file"), ("EXTRA", "1")])
      [("OPENAI_API_KEY", "sk-env")]).lookup "OPENAI_API_KEY" = some "sk-env" :=
  ⟨rfl, C8_dotenv_additive (some [("OPENAI_API_KEY", "from-file"), ("EXTRA", "1")])
    [("OPENAI_API_KEY", "sk-env")] "OPENAI_API_KEY" "sk-env" rfl⟩

/-- Claim C9 (confirmed): after the aggregate is constructed, no operation
the component exposes — further `Config.load()` calls or reads of the four
grouped records — ever changes any field of the stored aggregate: after any
sequence of operations the four records are unchanged. -/
theorem C9_never_mutated (st : ModuleState) (ops : List ComponentOp) :
    (runOps st ops).config.openai = st.config.openai ∧
    (runOps st ops).config.agent = st.config.agent ∧
    (runOps st ops).config.memory = st.config.memory ∧
    (runOps st ops).config.cost = st.config.cost := by
  rw [runOps_preserves]
  exact ⟨rfl, rfl, rfl, rfl⟩

/-- Claim C10 (confirmed): the environment lookups happen once, when the
class body is evaluated at import; `Config.load()` fills the fields from
those captured class defaults and ignores the environment current at call
time, so two loads under different environments return equal aggregates,
both equal to the import-time instance. -/
theorem C10_import_time_capture (importEnv env₁ env₂ : Env) (c : Config)
    (_h : Config.classDefaults importEnv = .ok c) :
    Config.load c env₁ = Config.load c env₂ ∧ Config.load c env₁ = c :=
  ⟨rfl, rfl⟩

/-- Witness for C10: the aggregate loaded under the import snapshot and the
one loaded after the environment changed to `envFull` are equal. -/
theorem C10_witness :
    Config.classDefaults envOnlyKey = .ok defaultAggregate ∧
    Config.load defaultAggregate envOnlyKey = Config.load defaultAggregate envFull ∧
    Config.load defaultAggregate envOnlyKey = defaultAggregate := by
  have hok : Config.classDefaults envOnlyKey = .ok defaultAggregate := rfl
  have h := C10_import_time_capture envOnlyKey envOnlyKey envFull defaultAggregate hok
  exact ⟨hok, h.1, h.2⟩

end EnterpriseAgent
